import Mathlib

/-!
Verification of the conduit pipeline core (conduit/pipeline/pipeline.go)
against its natural-language specification.

The development shallowly embeds:
- the pipeline metadata record (`state`, pipeline.go lines 168-172) and the
  on-disk metadata file;
- `encodeMetadataToFile` (lines 504-522) and
  `initializeOrLoadBlockMetadata` (lines 524-552);
- the metadata-related portion of `Init` (lines 281-297): genesis-hash
  capture, metadata load, mismatch check, `NextRoundOverride`;
- the round-loop worker spawned by `Start` (lines 401-494), as a
  step function `runIteration` for one iteration of the `pipelineRun`
  loop, iterated by `run` with explicit fuel (the Go loop is infinite);
  stage plugins, the context and the filesystem are oracles in an `Env`,
  and every metric observation and stage invocation is recorded as an
  event so that traces can be inspected;
- a timed model `retrySleepThenCheck` of the retry prelude
  (lines 410-422), where `time.Sleep` occupies a real interval and the
  `ctx.Done()` check happens at the instant the sleep returns.
-/

/-- Embeds `state` (pipeline.go lines 168-172): the pipeline metadata
record persisted to `metadata.json`, with fields `genesis-hash`,
`network`, `next-round`. -/
structure PMState where
  genesisHash : String
  network : String
  nextRound : Nat
deriving DecidableEq

/-- The metadata file on disk: absent, present but zero-length, or holding
an encoded `PMState`.  Partially-written JSON is not modeled: the file is
replaced atomically by rename (pipeline.go line 517), so a reader only
ever sees a whole document. -/
inductive MetaFile where
  | missing : MetaFile
  | empty : MetaFile
  | content : PMState → MetaFile
deriving DecidableEq

/-- Filesystem operations performed on the metadata file during init,
recorded so that theorems can state which writes happened. -/
inductive FsOp where
  | remove : FsOp
  | writeMeta : PMState → FsOp
  | readMeta : FsOp
deriving DecidableEq

/-- Embeds `encodeMetadataToFile` (pipeline.go lines 504-522): write the
record to `metadata.json.temp`, then rename over `metadata.json`.  `ok`
is the oracle for the create/encode/rename sequence succeeding; on
failure the final file is unchanged (only the temp file was touched) and
the second component is `false`, mirroring the returned error. -/
def encodeMetadataToFile (ok : Bool) (s : PMState) (f : MetaFile) :
    MetaFile × Bool :=
  if ok then (MetaFile.content s, true) else (f, false)

/-- Embeds `initializeOrLoadBlockMetadata` (pipeline.go lines 524-552).
`s` is the in-memory `p.pipelineMetadata` at the call (genesis hash and
network already populated by `Init`).  Missing file: write `s` and return
it.  Zero-length file: remove it, write `s`, return it.  Otherwise read
and JSON-decode the file into `p.pipelineMetadata` and return that.
I/O failures of the remove/write/read themselves (lines 529-531, 534-535,
538-548) are not modeled: the claims concern the successful load paths
and the checks that follow them. -/
def initializeOrLoadBlockMetadata (s : PMState) :
    MetaFile → PMState × MetaFile × List FsOp
  | MetaFile.missing => (s, MetaFile.content s, [FsOp.writeMeta s])
  | MetaFile.empty => (s, MetaFile.content s, [FsOp.remove, FsOp.writeMeta s])
  | MetaFile.content d => (d, MetaFile.content d, [FsOp.readMeta])

/-- Embeds the metadata portion of `Init` (pipeline.go lines 281-297):
populate `p.pipelineMetadata.GenesisHash`/`Network` from the importer's
genesis (`gh` is already the base64 string of the hash, `nw` the network),
load or initialize the metadata file, fail when the loaded genesis hash
differs from the importer's, and finally override `NextRound` in memory
when `override > 0` (`cfg.ConduitArgs.NextRoundOverride`).  Returns the
resulting file, the filesystem operations performed, and either the final
in-memory record or the init error. -/
def pInit (gh nw : String) (override : Nat) (f : MetaFile) :
    MetaFile × List FsOp × Except String PMState :=
  let s0 : PMState := { genesisHash := gh, network := nw, nextRound := 0 }
  let r := initializeOrLoadBlockMetadata s0 f
  if r.1.genesisHash = gh then
    if override > 0 then
      (r.2.1, r.2.2, Except.ok { r.1 with nextRound := override })
    else
      (r.2.1, r.2.2, Except.ok r.1)
  else
    (r.2.1, r.2.2,
      Except.error "genesis hash in metadata does not match expected value")

/-! ## The round-loop worker (`Start`, pipeline.go lines 401-494)

One iteration of the labeled `pipelineRun` loop is `runIteration`; the
loop itself is `run`, iterated with explicit fuel because the Go loop
only terminates by retry exhaustion or cancellation.  The stages, the
context, and the flush filesystem are oracles in `Env`, all indexed by
the iteration counter so that a stage may succeed on one invocation and
fail on another.  Everything observable — each metric observation, each
stage invocation with its round and outcome, each flush attempt with the
value it writes — is recorded as an `Ev` event in order. -/

/-- Latched pipeline errors (`p.setError`, pipeline.go lines 180-184),
tagged with the failing stage, the iteration on which it failed and, for
processors and callbacks, the position in the chain. -/
inductive PErr where
  | importerErr : Nat → PErr
  | processorErr : Nat → Nat → PErr
  | exporterErr : Nat → PErr
  | callbackErr : Nat → Nat → PErr
deriving DecidableEq

/-- Events of one worker execution, in program order. -/
inductive Ev where
  /-- Observation `metrics.PipelineRetryCount.Observe(float64(retry))`, line 410. -/
  | obsRetryCount : Nat → Ev
  /-- Call `time.Sleep(p.cfg.RetryDelay)`, line 417. -/
  | sleep : Ev
  /-- Call `(*p.importer).GetBlock(p.pipelineMetadata.NextRound)`, line 428,
  with the round requested and whether it succeeded. -/
  | getBlock : Nat → Bool → Ev
  /-- Observation `metrics.ImporterTimeSeconds.Observe(...)`, line 435. -/
  | obsImporterTime : Ev
  /-- Call `(*proc).Process(blkData)`, line 445: processor index, the round of
  the block being processed, and whether it succeeded. -/
  | process : Nat → Nat → Bool → Ev
  /-- Observation `metrics.ProcessorTimeSeconds.WithLabelValues(...).Observe(...)`,
  line 452, for the processor at the given index. -/
  | obsProcessorTime : Nat → Ev
  /-- Call `(*p.exporter).Receive(blkData)`, line 456: the round of the block
  delivered, and whether the exporter succeeded. -/
  | receive : Nat → Bool → Ev
  /-- Call `p.encodeMetadataToFile()`, line 467: the next-round value this
  flush attempt writes, and whether the flush succeeded. -/
  | metaWrite : Nat → Bool → Ev
  /-- Call `cb(blkData)`, line 474: callback index, the round of the block,
  and whether the callback succeeded. -/
  | callback : Nat → Nat → Bool → Ev
  /-- Observation `metrics.ExporterTimeSeconds.Observe(...)`, line 482. -/
  | obsExporterTime : Ev
  /-- Call `p.addMetrics(blkData, ...)`, line 485, for the given round. -/
  | obsBlockMetrics : Nat → Ev
deriving DecidableEq

/-- The environment of a worker run: configuration (`retryCap` is
`cfg.RetryCount`), the cancellation oracle (`cancelled iter` is whether
`p.ctx.Done()` is ready at iteration `iter`'s select, line 421), and the
stage/filesystem oracles.  `importOk iter r` is whether `GetBlock(r)`
succeeds at iteration `iter`; `procOk iter i r`, `exportOk iter r`,
`flushOk iter` and `cbOk iter j r` likewise for processor `i`, the
exporter, the metadata flush and completion callback `j`. -/
structure Env where
  retryCap : Nat
  cancelled : Nat → Bool
  importOk : Nat → Nat → Bool
  numProcs : Nat
  procOk : Nat → Nat → Nat → Bool
  exportOk : Nat → Nat → Bool
  flushOk : Nat → Bool
  numCbs : Nat
  cbOk : Nat → Nat → Nat → Bool

/-- Worker-visible mutable state: the `retry` counter local to `Start`,
`p.pipelineMetadata`, the metadata file on disk, and the latched error
`p.err`. -/
structure WState where
  retry : Nat
  meta : PMState
  file : MetaFile
  lastErr : Option PErr
deriving DecidableEq

/-- Result of one loop iteration: the state after it, the events it
emitted, and whether the worker returned (exited the goroutine). -/
structure IterResult where
  state : WState
  events : List Ev
  exited : Bool
deriving DecidableEq

/-- The processor chain (pipeline.go lines 443-453): run processors in
order on the block for round `r`; on the first failure stop (the Go code
latches the error and jumps to `pipelineRun`), returning its index; after
each success observe that processor's timing metric. -/
def runProcs (env : Env) (iter r : Nat) : List Nat → List Ev × Option Nat
  | [] => ([], none)
  | i :: rest =>
    if env.procOk iter i r then
      let res := runProcs env iter r rest
      (Ev.process i r true :: Ev.obsProcessorTime i :: res.1, res.2)
    else
      ([Ev.process i r false], some i)

/-- The completion-callback chain (pipeline.go lines 473-481): invoke the
registered callbacks in order with the block for round `r`; on the first
failure stop and return its index. -/
def runCbs (env : Env) (iter r : Nat) : List Nat → List Ev × Option Nat
  | [] => ([], none)
  | j :: rest =>
    if env.cbOk iter j r then
      let res := runCbs env iter r rest
      (Ev.callback j r true :: res.1, res.2)
    else
      ([Ev.callback j r false], some j)

/-- One iteration of the `pipelineRun` loop (pipeline.go lines 409-489),
translated branch for branch:
observe `retryCount` (line 410); exit if `retry > cfg.RetryCount`
(lines 411-414); sleep if `retry > 0` (lines 416-418); exit if the
context is done (lines 420-422); fetch the block for
`p.pipelineMetadata.NextRound` (line 428), on error latch it, bump
`retry` and restart (lines 429-434), else observe importer time
(line 435); run the processors (lines 443-453) with the same
error/restart handling; deliver to the exporter (lines 455-462)
likewise; increment `NextRound` and flush the metadata, an error being
logged only (lines 466-470); run the completion callbacks (lines
473-481), a failure latching the error and restarting — note the cursor
has already advanced; observe exporter time (line 482); observe the
block metrics when `NextRound > 1` (lines 484-486); clear the latched
error and reset `retry` (lines 487-488). -/
def runIteration (env : Env) (iter : Nat) (s : WState) : IterResult :=
  let ev0 := [Ev.obsRetryCount s.retry]
  if s.retry > env.retryCap then
    ⟨s, ev0, true⟩
  else
    let ev1 := ev0 ++ (if s.retry > 0 then [Ev.sleep] else [])
    if env.cancelled iter then
      ⟨s, ev1, true⟩
    else
      let r := s.meta.nextRound
      if env.importOk iter r then
        let ev2 := ev1 ++ [Ev.getBlock r true, Ev.obsImporterTime]
        let pr := runProcs env iter r (List.range env.numProcs)
        match pr.2 with
        | some i =>
          ⟨{ s with
              retry := s.retry + 1
              lastErr := some (PErr.processorErr iter i) },
           ev2 ++ pr.1, false⟩
        | none =>
          let ev3 := ev2 ++ pr.1
          if env.exportOk iter r then
            let meta2 := { s.meta with nextRound := r + 1 }
            let fl := encodeMetadataToFile (env.flushOk iter) meta2 s.file
            let ev4 := ev3 ++ [Ev.receive r true, Ev.metaWrite (r + 1) fl.2]
            let cr := runCbs env iter r (List.range env.numCbs)
            match cr.2 with
            | some j =>
              ⟨⟨s.retry + 1, meta2, fl.1, some (PErr.callbackErr iter j)⟩,
               ev4 ++ cr.1, false⟩
            | none =>
              ⟨⟨0, meta2, fl.1, none⟩,
               ev4 ++ cr.1 ++ [Ev.obsExporterTime] ++
                 (if r + 1 > 1 then [Ev.obsBlockMetrics r] else []),
               false⟩
          else
            ⟨{ s with
                retry := s.retry + 1
                lastErr := some (PErr.exporterErr iter) },
             ev3 ++ [Ev.receive r false], false⟩
      else
        ⟨{ s with
            retry := s.retry + 1
            lastErr := some (PErr.importerErr iter) },
         ev1 ++ [Ev.getBlock r false], false⟩

/-- Result of running the loop for a bounded number of iterations. -/
structure RunResult where
  state : WState
  events : List Ev
  exited : Bool
deriving DecidableEq

/-- The `pipelineRun` loop, iterated with fuel: `iter` numbers the
iterations so the oracles can vary per invocation.  `exited = true` means
the worker returned within the given fuel. -/
def run (env : Env) : Nat → Nat → WState → RunResult
  | 0, _, s => ⟨s, [], false⟩
  | fuel + 1, iter, s =>
    let it := runIteration env iter s
    if it.exited then ⟨it.state, it.events, true⟩
    else
      let rest := run env fuel (iter + 1) it.state
      ⟨rest.state, it.events ++ rest.events, rest.exited⟩

/-- Embeds `Error()` (pipeline.go lines 174-178): read the latched
error. -/
def pipelineError (s : WState) : Option PErr :=
  s.lastErr

/-! ### Trace projections -/

/-- Round of a successful export event. -/
def evExport : Ev → Option Nat
  | Ev.receive r true => some r
  | _ => none

/-- Value of any flush attempt (successful or not). -/
def evFlush : Ev → Option Nat
  | Ev.metaWrite v _ => some v
  | _ => none

/-- Value of a successful flush: what actually reached the file. -/
def evWritten : Ev → Option Nat
  | Ev.metaWrite v true => some v
  | _ => none

/-- Round of an import attempt (successful or not). -/
def evAttempt : Ev → Option Nat
  | Ev.getBlock r _ => some r
  | _ => none

/-- Rounds successfully delivered to the exporter, in order. -/
def exportRounds (evs : List Ev) : List Nat :=
  evs.filterMap evExport

/-- Next-round values of the flush attempts, in order. -/
def flushVals (evs : List Ev) : List Nat :=
  evs.filterMap evFlush

/-- Next-round values actually written to the metadata file, in order. -/
def writtenVals (evs : List Ev) : List Nat :=
  evs.filterMap evWritten

/-- Rounds requested from the importer, in order: one per attempt. -/
def roundsAttempted (evs : List Ev) : List Nat :=
  evs.filterMap evAttempt

/-! ### Concrete environments for the scenario claims -/

/-- Environment for the retry-exhaustion scenario: importer and all
`nprocs` processors always succeed, the exporter fails on every
invocation, no cancellation (spec scenario 4 generalized over the retry
budget `cap`). -/
def expFailEnv (cap nprocs : Nat) : Env where
  retryCap := cap
  cancelled := fun _ => false
  importOk := fun _ _ => true
  numProcs := nprocs
  procOk := fun _ _ _ => true
  exportOk := fun _ _ => false
  flushOk := fun _ => true
  numCbs := 0
  cbOk := fun _ _ _ => true

/-- Environment for the callback-error scenario (spec scenario 7): no
processors, one completion callback which fails on the worker's first
iteration and succeeds afterwards; everything else always succeeds. -/
def cbFailOnceEnv : Env where
  retryCap := 3
  cancelled := fun _ => false
  importOk := fun _ _ => true
  numProcs := 0
  procOk := fun _ _ _ => true
  exportOk := fun _ _ => true
  flushOk := fun _ => true
  numCbs := 1
  cbOk := fun iter _ _ => iter != 0

/-- Environment for the metric-emission scenario: one processor which
always fails; importer, exporter, flush and callbacks always succeed. -/
def procFailEnv : Env where
  retryCap := 3
  cancelled := fun _ => false
  importOk := fun _ _ => true
  numProcs := 1
  procOk := fun _ _ _ => false
  exportOk := fun _ _ => true
  flushOk := fun _ => true
  numCbs := 0
  cbOk := fun _ _ _ => true

/-- Environment for the flush-failure scenario: one callback, every stage
succeeds, but every metadata flush fails. -/
def flushFailEnv : Env where
  retryCap := 3
  cancelled := fun _ => false
  importOk := fun _ _ => true
  numProcs := 0
  procOk := fun _ _ _ => true
  exportOk := fun _ _ => true
  flushOk := fun _ => false
  numCbs := 1
  cbOk := fun _ _ _ => true

/-! ### Timed model of the retry prelude (pipeline.go lines 410-422)

The round loop's only voluntary suspension is `time.Sleep(p.cfg.RetryDelay)`
at line 417.  Go's `time.Sleep` blocks the goroutine for the full duration
and is not select-based: the context is not consulted during the sleep.
The `select` at lines 420-422 with a `default` branch is a non-blocking
poll of `p.ctx.Done()`, executed only after the sleep returns.  The timed
model assigns an instant to each step: the prelude starts at `t0`; the
sleep, when taken, ends at `t0 + delay`; the cancellation check observes a
cancellation that happened at or before the instant of the check. -/

/-- Outcome of the timed retry prelude: the instant the worker reaches
the import (or exits), and whether it exited. -/
structure SleepExit where
  exitTime : Nat
  exited : Bool
deriving DecidableEq

/-- Timed model of pipeline.go lines 410-422: observe the retry metric;
if `retry > retryCap` exit immediately; if `retry > 0` sleep for the full
`delay` (uninterruptible `time.Sleep`); then poll `ctx.Done()`, exiting
when the context was cancelled at some instant `tc ≤` the poll's
instant.  `cancelAt = none` means the context is never cancelled. -/
def retrySleepThenCheck (retry retryCap delay t0 : Nat)
    (cancelAt : Option Nat) : SleepExit :=
  if retry > retryCap then
    ⟨t0, true⟩
  else
    let t1 := if retry > 0 then t0 + delay else t0
    match cancelAt with
    | some tc => if tc ≤ t1 then ⟨t1, true⟩ else ⟨t1, false⟩
    | none => ⟨t1, false⟩

/-! ## Helper lemmas -/

/-- The processor chain emits only `process` and `obsProcessorTime`
events: no exports. -/
lemma exportRounds_runProcs (env : Env) (iter r : Nat) (l : List Nat) :
    exportRounds (runProcs env iter r l).1 = [] := by
  induction l with
  | nil => rfl
  | cons i rest ih =>
    by_cases h : env.procOk iter i r <;>
      simp [runProcs, h, exportRounds, evExport, List.filterMap_cons] <;>
      simpa [exportRounds] using ih

/-- The processor chain performs no metadata flush. -/
lemma flushVals_runProcs (env : Env) (iter r : Nat) (l : List Nat) :
    flushVals (runProcs env iter r l).1 = [] := by
  induction l with
  | nil => rfl
  | cons i rest ih =>
    by_cases h : env.procOk iter i r <;>
      simp [runProcs, h, flushVals, evFlush, List.filterMap_cons] <;>
      simpa [flushVals] using ih

/-- The processor chain issues no import. -/
lemma roundsAttempted_runProcs (env : Env) (iter r : Nat) (l : List Nat) :
    roundsAttempted (runProcs env iter r l).1 = [] := by
  induction l with
  | nil => rfl
  | cons i rest ih =>
    by_cases h : env.procOk iter i r <;>
      simp [runProcs, h, roundsAttempted, evAttempt, List.filterMap_cons] <;>
      simpa [roundsAttempted] using ih

/-- The processor chain never observes the exporter timer. -/
lemma exporterTime_notin_runProcs (env : Env) (iter r : Nat) (l : List Nat) :
    Ev.obsExporterTime ∉ (runProcs env iter r l).1 := by
  induction l with
  | nil => simp [runProcs]
  | cons i rest ih =>
    by_cases h : env.procOk iter i r <;> simp [runProcs, h, ih]

/-- The callback chain emits only `callback` events: no exports. -/
lemma exportRounds_runCbs (env : Env) (iter r : Nat) (l : List Nat) :
    exportRounds (runCbs env iter r l).1 = [] := by
  induction l with
  | nil => rfl
  | cons j rest ih =>
    by_cases h : env.cbOk iter j r <;>
      simp [runCbs, h, exportRounds, evExport, List.filterMap_cons] <;>
      simpa [exportRounds] using ih

/-- The callback chain performs no metadata flush. -/
lemma flushVals_runCbs (env : Env) (iter r : Nat) (l : List Nat) :
    flushVals (runCbs env iter r l).1 = [] := by
  induction l with
  | nil => rfl
  | cons j rest ih =>
    by_cases h : env.cbOk iter j r <;>
      simp [runCbs, h, flushVals, evFlush, List.filterMap_cons] <;>
      simpa [flushVals] using ih

/-- The callback chain issues no import. -/
lemma roundsAttempted_runCbs (env : Env) (iter r : Nat) (l : List Nat) :
    roundsAttempted (runCbs env iter r l).1 = [] := by
  induction l with
  | nil => rfl
  | cons j rest ih =>
    by_cases h : env.cbOk iter j r <;>
      simp [runCbs, h, roundsAttempted, evAttempt, List.filterMap_cons] <;>
      simpa [roundsAttempted] using ih

/-- If all processors succeed at this invocation, the chain reports no
failure. -/
lemma runProcs_allOk (env : Env) (iter r : Nat) (l : List Nat)
    (h : ∀ i, env.procOk iter i r = true) :
    (runProcs env iter r l).2 = none := by
  induction l with
  | nil => rfl
  | cons i rest ih => simp [runProcs, h i, ih]

/-- If the callback chain reports no failure, every callback in the list
was invoked and succeeded. -/
lemma runCbs_none_mem (env : Env) (iter r : Nat) (l : List Nat)
    (h : (runCbs env iter r l).2 = none) :
    ∀ j ∈ l, Ev.callback j r true ∈ (runCbs env iter r l).1 := by
  induction l with
  | nil => simp
  | cons j rest ih =>
    by_cases hc : env.cbOk iter j r
    · intro j2 hj2
      rcases List.mem_cons.1 hj2 with h1 | h1
      · subst h1; simp [runCbs, hc]
      · have := ih (by simpa [runCbs, hc] using h) j2 h1
        simp [runCbs, hc, this]
    · simp [runCbs, hc] at h

/-- Trace projections distribute over concatenation of traces. -/
lemma exportRounds_append (a b : List Ev) :
    exportRounds (a ++ b) = exportRounds a ++ exportRounds b :=
  List.filterMap_append a b evExport

/-- Trace projections distribute over concatenation of traces. -/
lemma flushVals_append (a b : List Ev) :
    flushVals (a ++ b) = flushVals a ++ flushVals b :=
  List.filterMap_append a b evFlush

/-- Trace projections distribute over concatenation of traces. -/
lemma writtenVals_append (a b : List Ev) :
    writtenVals (a ++ b) = writtenVals a ++ writtenVals b :=
  List.filterMap_append a b evWritten

/-- Trace projections distribute over concatenation of traces. -/
lemma roundsAttempted_append (a b : List Ev) :
    roundsAttempted (a ++ b) = roundsAttempted a ++ roundsAttempted b :=
  List.filterMap_append a b evAttempt

/-- Trace projections distribute over a branch on a decidable
condition. -/
lemma exportRounds_ite (c : Prop) [Decidable c] (a b : List Ev) :
    exportRounds (if c then a else b) =
      if c then exportRounds a else exportRounds b := by
  split <;> rfl

/-- Trace projections distribute over a branch on a decidable
condition. -/
lemma flushVals_ite (c : Prop) [Decidable c] (a b : List Ev) :
    flushVals (if c then a else b) =
      if c then flushVals a else flushVals b := by
  split <;> rfl

/-- Trace projections distribute over a branch on a decidable
condition. -/
lemma roundsAttempted_ite (c : Prop) [Decidable c] (a b : List Ev) :
    roundsAttempted (if c then a else b) =
      if c then roundsAttempted a else roundsAttempted b := by
  split <;> rfl

/-- The values that reach the file are a subsequence of the values of all
flush attempts. -/
lemma writtenVals_sublist (evs : List Ev) :
    List.Sublist (writtenVals evs) (flushVals evs) := by
  induction evs with
  | nil => simp [writtenVals, flushVals]
  | cons e rest ih =>
    cases e with
    | metaWrite v b =>
      cases b
      · simpa [writtenVals, flushVals, evWritten, evFlush, List.filterMap_cons]
          using ih.cons v
      · simpa [writtenVals, flushVals, evWritten, evFlush, List.filterMap_cons]
          using ih.cons₂ v
    | obsRetryCount n =>
      simpa [writtenVals, flushVals, evWritten, evFlush, List.filterMap_cons]
        using ih
    | sleep =>
      simpa [writtenVals, flushVals, evWritten, evFlush, List.filterMap_cons]
        using ih
    | getBlock r ok =>
      simpa [writtenVals, flushVals, evWritten, evFlush, List.filterMap_cons]
        using ih
    | obsImporterTime =>
      simpa [writtenVals, flushVals, evWritten, evFlush, List.filterMap_cons]
        using ih
    | process i r ok =>
      simpa [writtenVals, flushVals, evWritten, evFlush, List.filterMap_cons]
        using ih
    | obsProcessorTime i =>
      simpa [writtenVals, flushVals, evWritten, evFlush, List.filterMap_cons]
        using ih
    | receive r ok =>
      simpa [writtenVals, flushVals, evWritten, evFlush, List.filterMap_cons]
        using ih
    | callback j r ok =>
      simpa [writtenVals, flushVals, evWritten, evFlush, List.filterMap_cons]
        using ih
    | obsExporterTime =>
      simpa [writtenVals, flushVals, evWritten, evFlush, List.filterMap_cons]
        using ih
    | obsBlockMetrics r =>
      simpa [writtenVals, flushVals, evWritten, evFlush, List.filterMap_cons]
        using ih

/-- Exhaustion branch (pipeline.go lines 410-414): the retry metric is
observed, then the worker exits, leaving the state — including the
latched error — untouched. -/
lemma runIteration_exhaust (env : Env) (iter : Nat) (s : WState)
    (h : s.retry > env.retryCap) :
    runIteration env iter s = ⟨s, [Ev.obsRetryCount s.retry], true⟩ := by
  simp [runIteration, h]

/-- Cancellation branch (pipeline.go lines 420-422): after the budget
check and the sleep, a ready `ctx.Done()` makes the worker exit with the
state untouched. -/
lemma runIteration_cancelled (env : Env) (iter : Nat) (s : WState)
    (hcap : s.retry ≤ env.retryCap) (hcan : env.cancelled iter = true) :
    runIteration env iter s =
      ⟨s, [Ev.obsRetryCount s.retry] ++ (if s.retry > 0 then [Ev.sleep] else []),
       true⟩ := by
  have h1 : ¬ s.retry > env.retryCap := Nat.not_lt.2 hcap
  simp [runIteration, h1, hcan]

/-- Import-failure branch (pipeline.go lines 429-434): the error is
latched, `retry` is bumped, cursor and file are untouched, and the loop
restarts. -/
lemma runIteration_importFail (env : Env) (iter : Nat) (s : WState)
    (hcap : s.retry ≤ env.retryCap) (hcan : env.cancelled iter = false)
    (himp : env.importOk iter s.meta.nextRound = false) :
    runIteration env iter s =
      ⟨⟨s.retry + 1, s.meta, s.file, some (PErr.importerErr iter)⟩,
       [Ev.obsRetryCount s.retry] ++ (if s.retry > 0 then [Ev.sleep] else []) ++
         [Ev.getBlock s.meta.nextRound false],
       false⟩ := by
  have h1 : ¬ s.retry > env.retryCap := Nat.not_lt.2 hcap
  simp [runIteration, h1, hcan, himp]

/-- Processor-failure branch (pipeline.go lines 446-451): the importer
timer has already been observed; the error is latched, `retry` bumped,
cursor and file untouched. -/
lemma runIteration_procFail (env : Env) (iter : Nat) (s : WState) (i : Nat)
    (hcap : s.retry ≤ env.retryCap) (hcan : env.cancelled iter = false)
    (himp : env.importOk iter s.meta.nextRound = true)
    (hpr : (runProcs env iter s.meta.nextRound (List.range env.numProcs)).2 =
      some i) :
    runIteration env iter s =
      ⟨⟨s.retry + 1, s.meta, s.file, some (PErr.processorErr iter i)⟩,
       [Ev.obsRetryCount s.retry] ++ (if s.retry > 0 then [Ev.sleep] else []) ++
         [Ev.getBlock s.meta.nextRound true, Ev.obsImporterTime] ++
         (runProcs env iter s.meta.nextRound (List.range env.numProcs)).1,
       false⟩ := by
  have h1 : ¬ s.retry > env.retryCap := Nat.not_lt.2 hcap
  simp [runIteration, h1, hcan, himp, hpr]

/-- Exporter-failure branch (pipeline.go lines 457-461): importer and
processor timers already observed; error latched, `retry` bumped, cursor
and file untouched — in particular no flush happens. -/
lemma runIteration_exportFail (env : Env) (iter : Nat) (s : WState)
    (hcap : s.retry ≤ env.retryCap) (hcan : env.cancelled iter = false)
    (himp : env.importOk iter s.meta.nextRound = true)
    (hpr : (runProcs env iter s.meta.nextRound (List.range env.numProcs)).2 =
      none)
    (hexp : env.exportOk iter s.meta.nextRound = false) :
    runIteration env iter s =
      ⟨⟨s.retry + 1, s.meta, s.file, some (PErr.exporterErr iter)⟩,
       [Ev.obsRetryCount s.retry] ++ (if s.retry > 0 then [Ev.sleep] else []) ++
         [Ev.getBlock s.meta.nextRound true, Ev.obsImporterTime] ++
         (runProcs env iter s.meta.nextRound (List.range env.numProcs)).1 ++
         [Ev.receive s.meta.nextRound false],
       false⟩ := by
  have h1 : ¬ s.retry > env.retryCap := Nat.not_lt.2 hcap
  simp [runIteration, h1, hcan, himp, hpr, hexp]

/-- Callback-failure branch (pipeline.go lines 475-480): the round was
exported and the cursor already advanced and was flushed; the callback
error is latched and `retry` bumped, but `NextRound` stays at the
incremented value. -/
lemma runIteration_cbFail (env : Env) (iter : Nat) (s : WState) (j : Nat)
    (hcap : s.retry ≤ env.retryCap) (hcan : env.cancelled iter = false)
    (himp : env.importOk iter s.meta.nextRound = true)
    (hpr : (runProcs env iter s.meta.nextRound (List.range env.numProcs)).2 =
      none)
    (hexp : env.exportOk iter s.meta.nextRound = true)
    (hcr : (runCbs env iter s.meta.nextRound (List.range env.numCbs)).2 =
      some j) :
    runIteration env iter s =
      ⟨⟨s.retry + 1, { s.meta with nextRound := s.meta.nextRound + 1 },
        (encodeMetadataToFile (env.flushOk iter)
          { s.meta with nextRound := s.meta.nextRound + 1 } s.file).1,
        some (PErr.callbackErr iter j)⟩,
       [Ev.obsRetryCount s.retry] ++ (if s.retry > 0 then [Ev.sleep] else []) ++
         [Ev.getBlock s.meta.nextRound true, Ev.obsImporterTime] ++
         (runProcs env iter s.meta.nextRound (List.range env.numProcs)).1 ++
         [Ev.receive s.meta.nextRound true,
          Ev.metaWrite (s.meta.nextRound + 1)
            (encodeMetadataToFile (env.flushOk iter)
              { s.meta with nextRound := s.meta.nextRound + 1 } s.file).2] ++
         (runCbs env iter s.meta.nextRound (List.range env.numCbs)).1,
       false⟩ := by
  have h1 : ¬ s.retry > env.retryCap := Nat.not_lt.2 hcap
  simp [runIteration, h1, hcan, himp, hpr, hexp, hcr]

/-- Fully successful iteration (pipeline.go lines 424-488): cursor
advanced, flush attempted (file updated when the flush succeeds), all
callbacks ran, exporter timer observed, latched error cleared and retry
reset. -/
lemma runIteration_success (env : Env) (iter : Nat) (s : WState)
    (hcap : s.retry ≤ env.retryCap) (hcan : env.cancelled iter = false)
    (himp : env.importOk iter s.meta.nextRound = true)
    (hpr : (runProcs env iter s.meta.nextRound (List.range env.numProcs)).2 =
      none)
    (hexp : env.exportOk iter s.meta.nextRound = true)
    (hcr : (runCbs env iter s.meta.nextRound (List.range env.numCbs)).2 =
      none) :
    runIteration env iter s =
      ⟨⟨0, { s.meta with nextRound := s.meta.nextRound + 1 },
        (encodeMetadataToFile (env.flushOk iter)
          { s.meta with nextRound := s.meta.nextRound + 1 } s.file).1, none⟩,
       [Ev.obsRetryCount s.retry] ++ (if s.retry > 0 then [Ev.sleep] else []) ++
         [Ev.getBlock s.meta.nextRound true, Ev.obsImporterTime] ++
         (runProcs env iter s.meta.nextRound (List.range env.numProcs)).1 ++
         [Ev.receive s.meta.nextRound true,
          Ev.metaWrite (s.meta.nextRound + 1)
            (encodeMetadataToFile (env.flushOk iter)
              { s.meta with nextRound := s.meta.nextRound + 1 } s.file).2] ++
         (runCbs env iter s.meta.nextRound (List.range env.numCbs)).1 ++
         [Ev.obsExporterTime] ++
         (if s.meta.nextRound + 1 > 1 then [Ev.obsBlockMetrics s.meta.nextRound]
          else []),
       false⟩ := by
  have h1 : ¬ s.retry > env.retryCap := Nat.not_lt.2 hcap
  simp [runIteration, h1, hcan, himp, hpr, hexp, hcr]

/-- Any single iteration either exports nothing and attempts no flush,
leaving the cursor where it was, or exports exactly the current round and
makes exactly one flush attempt carrying the incremented cursor. -/
lemma iter_flush_cases (env : Env) (iter : Nat) (s : WState) :
    (exportRounds (runIteration env iter s).events = []
      ∧ flushVals (runIteration env iter s).events = []
      ∧ (runIteration env iter s).state.meta.nextRound = s.meta.nextRound)
    ∨ (exportRounds (runIteration env iter s).events = [s.meta.nextRound]
      ∧ flushVals (runIteration env iter s).events = [s.meta.nextRound + 1]
      ∧ (runIteration env iter s).state.meta.nextRound =
          s.meta.nextRound + 1) := by
  by_cases hcap : s.retry > env.retryCap
  · left
    rw [runIteration_exhaust env iter s hcap]
    simp [exportRounds, flushVals, evExport, evFlush]
  · have hcap2 : s.retry ≤ env.retryCap := Nat.not_lt.1 hcap
    by_cases hcan : env.cancelled iter
    · left
      rw [runIteration_cancelled env iter s hcap2 hcan]
      refine ⟨?_, ?_, rfl⟩ <;>
        simp [exportRounds_append, flushVals_append, exportRounds_ite,
          flushVals_ite, exportRounds, flushVals, evExport, evFlush]
    · have hcan2 : env.cancelled iter = false := by simpa using hcan
      by_cases himp : env.importOk iter s.meta.nextRound
      · rcases hpr : (runProcs env iter s.meta.nextRound
            (List.range env.numProcs)).2 with _ | i
        · by_cases hexp : env.exportOk iter s.meta.nextRound
          · rcases hcr : (runCbs env iter s.meta.nextRound
                (List.range env.numCbs)).2 with _ | j
            · right
              rw [runIteration_success env iter s hcap2 hcan2 himp hpr hexp hcr]
              refine ⟨?_, ?_, rfl⟩ <;>
                simp only [exportRounds_append, flushVals_append,
                  exportRounds_ite, flushVals_ite, exportRounds_runProcs,
                  flushVals_runProcs, exportRounds_runCbs, flushVals_runCbs] <;>
                simp [exportRounds, flushVals, evExport, evFlush]
            · right
              rw [runIteration_cbFail env iter s j hcap2 hcan2 himp hpr hexp hcr]
              refine ⟨?_, ?_, rfl⟩ <;>
                simp only [exportRounds_append, flushVals_append,
                  exportRounds_ite, flushVals_ite, exportRounds_runProcs,
                  flushVals_runProcs, exportRounds_runCbs, flushVals_runCbs] <;>
                simp [exportRounds, flushVals, evExport, evFlush]
          · left
            have hexp2 : env.exportOk iter s.meta.nextRound = false := by
              simpa using hexp
            rw [runIteration_exportFail env iter s hcap2 hcan2 himp hpr hexp2]
            refine ⟨?_, ?_, rfl⟩ <;>
              simp only [exportRounds_append, flushVals_append,
                exportRounds_ite, flushVals_ite, exportRounds_runProcs,
                flushVals_runProcs] <;>
              simp [exportRounds, flushVals, evExport, evFlush]
        · left
          rw [runIteration_procFail env iter s i hcap2 hcan2 himp hpr]
          refine ⟨?_, ?_, rfl⟩ <;>
            simp only [exportRounds_append, flushVals_append,
              exportRounds_ite, flushVals_ite, exportRounds_runProcs,
              flushVals_runProcs] <;>
            simp [exportRounds, flushVals, evExport, evFlush]
      · left
        have himp2 : env.importOk iter s.meta.nextRound = false := by
          simpa using himp
        rw [runIteration_importFail env iter s hcap2 hcan2 himp2]
        refine ⟨?_, ?_, rfl⟩ <;>
          simp [exportRounds_append, flushVals_append, exportRounds_ite,
            flushVals_ite, exportRounds, flushVals, evExport, evFlush]

/-- Any iteration that is within the retry budget and not cancelled makes
exactly one import attempt, and that attempt targets the cursor as it
stands at the top of the iteration. -/
lemma roundsAttempted_iter (env : Env) (iter : Nat) (s : WState)
    (hcap : s.retry ≤ env.retryCap) (hcan : env.cancelled iter = false) :
    roundsAttempted (runIteration env iter s).events = [s.meta.nextRound] := by
  by_cases himp : env.importOk iter s.meta.nextRound
  · rcases hpr : (runProcs env iter s.meta.nextRound
        (List.range env.numProcs)).2 with _ | i
    · by_cases hexp : env.exportOk iter s.meta.nextRound
      · rcases hcr : (runCbs env iter s.meta.nextRound
            (List.range env.numCbs)).2 with _ | j
        · rw [runIteration_success env iter s hcap hcan himp hpr hexp hcr]
          simp only [roundsAttempted_append, roundsAttempted_ite,
            roundsAttempted_runProcs, roundsAttempted_runCbs]
          simp [roundsAttempted, evAttempt]
        · rw [runIteration_cbFail env iter s j hcap hcan himp hpr hexp hcr]
          simp only [roundsAttempted_append, roundsAttempted_ite,
            roundsAttempted_runProcs, roundsAttempted_runCbs]
          simp [roundsAttempted, evAttempt]
      · have hexp2 : env.exportOk iter s.meta.nextRound = false := by
          simpa using hexp
        rw [runIteration_exportFail env iter s hcap hcan himp hpr hexp2]
        simp only [roundsAttempted_append, roundsAttempted_ite,
          roundsAttempted_runProcs]
        simp [roundsAttempted, evAttempt]
    · rw [runIteration_procFail env iter s i hcap hcan himp hpr]
      simp only [roundsAttempted_append, roundsAttempted_ite,
        roundsAttempted_runProcs]
      simp [roundsAttempted, evAttempt]
  · have himp2 : env.importOk iter s.meta.nextRound = false := by
      simpa using himp
    rw [runIteration_importFail env iter s hcap hcan himp2]
    simp only [roundsAttempted_append, roundsAttempted_ite]
    simp [roundsAttempted, evAttempt]

/-- Whole-run flush invariant: over any execution of the worker, the
flush attempts carry exactly the incremented round of each successful
export in order, every flushed value exceeds the starting cursor, and the
flushed values are strictly increasing. -/
lemma run_flush_spec (env : Env) :
    ∀ (fuel iter : Nat) (s : WState),
      flushVals (run env fuel iter s).events =
        (exportRounds (run env fuel iter s).events).map (· + 1)
      ∧ (∀ v ∈ flushVals (run env fuel iter s).events, s.meta.nextRound < v)
      ∧ List.Pairwise (· < ·) (flushVals (run env fuel iter s).events) := by
  intro fuel
  induction fuel with
  | zero =>
    intro iter s
    simp [run, flushVals, exportRounds]
  | succ fuel ih =>
    intro iter s
    by_cases hex : (runIteration env iter s).exited
    · have hrun : run env (fuel + 1) iter s =
          ⟨(runIteration env iter s).state, (runIteration env iter s).events,
           true⟩ := by
        simp [run, hex]
      rw [hrun]
      rcases iter_flush_cases env iter s with ⟨he, hf, hn⟩ | ⟨he, hf, hn⟩ <;>
        simp [he, hf]
    · have hrun : run env (fuel + 1) iter s =
          ⟨(run env fuel (iter + 1) (runIteration env iter s).state).state,
           (runIteration env iter s).events ++
             (run env fuel (iter + 1) (runIteration env iter s).state).events,
           (run env fuel (iter + 1) (runIteration env iter s).state).exited⟩ := by
        simp [run, hex]
      rw [hrun]
      obtain ⟨ih1, ih2, ih3⟩ := ih (iter + 1) (runIteration env iter s).state
      rcases iter_flush_cases env iter s with ⟨he, hf, hn⟩ | ⟨he, hf, hn⟩
      · simp only [flushVals_append, exportRounds_append, he, hf,
          List.nil_append, List.map_nil]
        refine ⟨ih1, ?_, ih3⟩
        intro v hv
        have := ih2 v hv
        omega
      · simp only [flushVals_append, exportRounds_append, he, hf,
          List.map_cons, List.singleton_append, List.cons_append,
          List.nil_append]
        rw [hn] at ih2
        refine ⟨by rw [ih1], ?_, ?_⟩
        · intro v hv
          rcases List.mem_cons.1 hv with h1 | h1
          · omega
          · have := ih2 v h1
            omega
        · refine List.pairwise_cons.2 ⟨?_, ih3⟩
          intro v hv
          have := ih2 v hv
          omega

/-- Under `expFailEnv`, an iteration within budget makes exactly one
attempt at the current round, latches the exporter error, bumps `retry`,
and leaves cursor and file untouched. -/
lemma expFail_iter (cap nprocs iter : Nat) (s : WState) (h : s.retry ≤ cap) :
    (runIteration (expFailEnv cap nprocs) iter s).state =
      ⟨s.retry + 1, s.meta, s.file, some (PErr.exporterErr iter)⟩
    ∧ (runIteration (expFailEnv cap nprocs) iter s).exited = false
    ∧ roundsAttempted (runIteration (expFailEnv cap nprocs) iter s).events =
        [s.meta.nextRound] := by
  have hpr : (runProcs (expFailEnv cap nprocs) iter s.meta.nextRound
      (List.range (expFailEnv cap nprocs).numProcs)).2 = none :=
    runProcs_allOk _ _ _ _ (fun _ => rfl)
  rw [runIteration_exportFail (expFailEnv cap nprocs) iter s h rfl rfl hpr rfl]
  refine ⟨rfl, rfl, ?_⟩
  simp only [roundsAttempted_append, roundsAttempted_ite,
    roundsAttempted_runProcs]
  simp [roundsAttempted, evAttempt]

/-- Under `expFailEnv`, starting with `k` attempts left in the budget
(`retry + k = cap + 1`) and enough fuel, the worker makes exactly `k`
further attempts, all at the same round, then exits; cursor and file are
untouched, and the latched error after at least one attempt is the
exporter error of the last attempt. -/
lemma expFail_run (cap nprocs : Nat) :
    ∀ (k iter fuel : Nat) (s : WState), s.retry + k = cap + 1 →
      k + 1 ≤ fuel →
      (run (expFailEnv cap nprocs) fuel iter s).exited = true
      ∧ (run (expFailEnv cap nprocs) fuel iter s).state.meta = s.meta
      ∧ (run (expFailEnv cap nprocs) fuel iter s).state.file = s.file
      ∧ roundsAttempted (run (expFailEnv cap nprocs) fuel iter s).events =
          List.replicate k s.meta.nextRound
      ∧ (k = 0 →
          (run (expFailEnv cap nprocs) fuel iter s).state.lastErr = s.lastErr)
      ∧ (∀ m, k = m + 1 →
          (run (expFailEnv cap nprocs) fuel iter s).state.lastErr =
            some (PErr.exporterErr (iter + m))) := by
  intro k
  induction k with
  | zero =>
    intro iter fuel s hk hf
    obtain ⟨fuel2, rfl⟩ : ∃ f2, fuel = f2 + 1 := ⟨fuel - 1, by omega⟩
    have hgt : s.retry > (expFailEnv cap nprocs).retryCap := by
      show s.retry > cap
      omega
    have hit := runIteration_exhaust (expFailEnv cap nprocs) iter s hgt
    have hrun : run (expFailEnv cap nprocs) (fuel2 + 1) iter s =
        ⟨s, [Ev.obsRetryCount s.retry], true⟩ := by
      simp [run, hit]
    rw [hrun]
    simp [roundsAttempted, evAttempt]
  | succ k ihk =>
    intro iter fuel s hk hf
    obtain ⟨fuel2, rfl⟩ : ∃ f2, fuel = f2 + 1 := ⟨fuel - 1, by omega⟩
    have hle : s.retry ≤ cap := by omega
    obtain ⟨hst, hex, hra⟩ := expFail_iter cap nprocs iter s hle
    have hrun : run (expFailEnv cap nprocs) (fuel2 + 1) iter s =
        ⟨(run (expFailEnv cap nprocs) fuel2 (iter + 1)
            (runIteration (expFailEnv cap nprocs) iter s).state).state,
         (runIteration (expFailEnv cap nprocs) iter s).events ++
           (run (expFailEnv cap nprocs) fuel2 (iter + 1)
             (runIteration (expFailEnv cap nprocs) iter s).state).events,
         (run (expFailEnv cap nprocs) fuel2 (iter + 1)
           (runIteration (expFailEnv cap nprocs) iter s).state).exited⟩ := by
      simp [run, hex]
    rw [hrun]
    have hr1 : (runIteration (expFailEnv cap nprocs) iter s).state.retry =
        s.retry + 1 := by rw [hst]
    have hm1 : (runIteration (expFailEnv cap nprocs) iter s).state.meta =
        s.meta := by rw [hst]
    have hf1 : (runIteration (expFailEnv cap nprocs) iter s).state.file =
        s.file := by rw [hst]
    have he1 : (runIteration (expFailEnv cap nprocs) iter s).state.lastErr =
        some (PErr.exporterErr iter) := by rw [hst]
    obtain ⟨h1, h2, h3, h4, h5, h6⟩ := ihk (iter + 1) fuel2
      (runIteration (expFailEnv cap nprocs) iter s).state
      (by rw [hr1]; omega) (by omega)
    refine ⟨h1, by rw [h2, hm1], by rw [h3, hf1], ?_,
      fun h => absurd h (Nat.succ_ne_zero k), ?_⟩
    · rw [roundsAttempted_append, hra, h4, hm1]
      simp [List.replicate_succ]
    · intro m hm
      have hmk : m = k := by omega
      subst hmk
      cases m with
      | zero =>
        rw [h5 rfl, he1, Nat.add_zero]
      | succ m2 =>
        rw [h6 m2 rfl]
        have harith : iter + 1 + m2 = iter + (m2 + 1) := by omega
        rw [harith]

/-! ## Theorems -/

/-- C3: with retry budget `cap`, a stage (here the exporter) that fails
on every invocation causes the worker to make exactly `cap + 1` attempts,
all at the same round, and then exit; afterwards `Error()` returns the
exporter's error (from the last attempt) and the metadata file — hence
the on-disk next-round — is unchanged, as is the in-memory cursor. -/
theorem c3_retry_budget_exhaustion (cap nprocs fuel : Nat) (m0 : PMState)
    (f0 : MetaFile) (hf : cap + 2 ≤ fuel) :
    (run (expFailEnv cap nprocs) fuel 0 ⟨0, m0, f0, none⟩).exited = true
    ∧ roundsAttempted
        (run (expFailEnv cap nprocs) fuel 0 ⟨0, m0, f0, none⟩).events =
        List.replicate (cap + 1) m0.nextRound
    ∧ pipelineError (run (expFailEnv cap nprocs) fuel 0 ⟨0, m0, f0, none⟩).state
        = some (PErr.exporterErr cap)
    ∧ (run (expFailEnv cap nprocs) fuel 0 ⟨0, m0, f0, none⟩).state.file = f0
    ∧ (run (expFailEnv cap nprocs) fuel 0 ⟨0, m0, f0, none⟩).state.meta = m0
    := by
  obtain ⟨h1, h2, h3, h4, h5, h6⟩ := expFail_run cap nprocs (cap + 1) 0 fuel
    ⟨0, m0, f0, none⟩ (by simp) (by omega)
  have herr := h6 cap rfl
  rw [Nat.zero_add] at herr
  exact ⟨h1, h4, by simpa [pipelineError] using herr, h3, h2⟩

/-- Witness for C3 (spec scenario 4): `RetryCount = 2`, exporter
permanently failing on round 3: three attempts at round 3, worker exits,
`Error()` is the exporter error, next-round 3 still on disk. -/
theorem c3_retry_budget_exhaustion_witness :
    (run (expFailEnv 2 1) 4 0
        ⟨0, ⟨"g", "n", 3⟩, MetaFile.content ⟨"g", "n", 3⟩, none⟩).exited = true
    ∧ roundsAttempted (run (expFailEnv 2 1) 4 0
        ⟨0, ⟨"g", "n", 3⟩, MetaFile.content ⟨"g", "n", 3⟩, none⟩).events =
        List.replicate 3 3
    ∧ pipelineError (run (expFailEnv 2 1) 4 0
        ⟨0, ⟨"g", "n", 3⟩, MetaFile.content ⟨"g", "n", 3⟩, none⟩).state =
        some (PErr.exporterErr 2)
    ∧ (run (expFailEnv 2 1) 4 0
        ⟨0, ⟨"g", "n", 3⟩, MetaFile.content ⟨"g", "n", 3⟩, none⟩).state.file =
        MetaFile.content ⟨"g", "n", 3⟩
    ∧ (run (expFailEnv 2 1) 4 0
        ⟨0, ⟨"g", "n", 3⟩, MetaFile.content ⟨"g", "n", 3⟩, none⟩).state.meta =
        ⟨"g", "n", 3⟩ :=
  c3_retry_budget_exhaustion 2 1 4 ⟨"g", "n", 3⟩
    (MetaFile.content ⟨"g", "n", 3⟩) (by omega)

/-- C4: over any execution of the worker, the sequence of next-round
values actually written to the metadata file is monotone non-decreasing,
and the flush attempts carry exactly one plus each successfully exported
round, in order — the cursor advances by exactly 1 per successfully
exported round. -/
theorem c4_metadata_writes_monotone (env : Env) (fuel iter : Nat)
    (s : WState) :
    List.Pairwise (· ≤ ·) (writtenVals (run env fuel iter s).events)
    ∧ flushVals (run env fuel iter s).events =
        (exportRounds (run env fuel iter s).events).map (· + 1) := by
  obtain ⟨h1, _, h3⟩ := run_flush_spec env fuel iter s
  exact ⟨(h3.sublist (writtenVals_sublist _)).imp Nat.le_of_lt, h1⟩

/-- C5: if the metadata file exists with a genesis-hash differing from
the importer's, `Init` returns an error, and the load performed only a
read, so the on-disk record (in particular its next-round) is
unchanged. -/
theorem c5_genesis_mismatch_fails_disk_unchanged
    (gh nw : String) (override : Nat) (d : PMState)
    (h : d.genesisHash ≠ gh) :
    (pInit gh nw override (MetaFile.content d)).1 = MetaFile.content d
    ∧ (pInit gh nw override (MetaFile.content d)).2.1 = [FsOp.readMeta]
    ∧ (pInit gh nw override (MetaFile.content d)).2.2 =
        Except.error "genesis hash in metadata does not match expected value" := by
  simp [pInit, initializeOrLoadBlockMetadata, h]

/-- Witness for C5 at a concrete input: on-disk hash "B", importer hash
"A", next-round 5 on disk stays on disk and init errors. -/
theorem c5_genesis_mismatch_fails_disk_unchanged_witness :
    (pInit "A" "net" 0 (MetaFile.content ⟨"B", "net", 5⟩)).1 =
        MetaFile.content ⟨"B", "net", 5⟩
    ∧ (pInit "A" "net" 0 (MetaFile.content ⟨"B", "net", 5⟩)).2.1 = [FsOp.readMeta]
    ∧ (pInit "A" "net" 0 (MetaFile.content ⟨"B", "net", 5⟩)).2.2 =
        Except.error "genesis hash in metadata does not match expected value" :=
  c5_genesis_mismatch_fails_disk_unchanged "A" "net" 0 ⟨"B", "net", 5⟩ (by decide)

/-- C8: the metadata load writes the current in-memory record and returns
it when the file is missing; deletes the file first, then writes and
returns the in-memory record when the file is zero-length; and otherwise
reads the file and returns the on-disk record. -/
theorem c8_metadata_load_cases (s : PMState) :
    initializeOrLoadBlockMetadata s MetaFile.missing =
        (s, MetaFile.content s, [FsOp.writeMeta s])
    ∧ initializeOrLoadBlockMetadata s MetaFile.empty =
        (s, MetaFile.content s, [FsOp.remove, FsOp.writeMeta s])
    ∧ ∀ d : PMState, initializeOrLoadBlockMetadata s (MetaFile.content d) =
        (d, MetaFile.content d, [FsOp.readMeta]) :=
  ⟨rfl, rfl, fun _ => rfl⟩

/-- C10: with `NextRoundOverride > 0` and a matching genesis hash, `Init`
applies the override only to the in-memory record after the load: when
the file exists it is only read, keeping its pre-override next-round, and
when the file is missing the record written to disk still carries the
pre-override next-round 0; in both cases the in-memory cursor returned by
init is the override. -/
theorem c10_override_not_flushed
    (gh nw : String) (override : Nat) (d : PMState)
    (hd : d.genesisHash = gh) (hov : 0 < override) :
    (pInit gh nw override (MetaFile.content d)).1 = MetaFile.content d
    ∧ (pInit gh nw override (MetaFile.content d)).2.1 = [FsOp.readMeta]
    ∧ (pInit gh nw override (MetaFile.content d)).2.2 =
        Except.ok { d with nextRound := override }
    ∧ (pInit gh nw override MetaFile.missing).1 =
        MetaFile.content ⟨gh, nw, 0⟩
    ∧ (pInit gh nw override MetaFile.missing).2.2 =
        Except.ok ⟨gh, nw, override⟩ := by
  simp [pInit, initializeOrLoadBlockMetadata, hd, hov]

/-- Witness for C10: disk has next-round 100, override 50; disk keeps 100,
memory starts at 50. -/
theorem c10_override_not_flushed_witness :
    (pInit "A" "net" 50 (MetaFile.content ⟨"A", "net", 100⟩)).1 =
        MetaFile.content ⟨"A", "net", 100⟩
    ∧ (pInit "A" "net" 50 (MetaFile.content ⟨"A", "net", 100⟩)).2.1 =
        [FsOp.readMeta]
    ∧ (pInit "A" "net" 50 (MetaFile.content ⟨"A", "net", 100⟩)).2.2 =
        Except.ok { (⟨"A", "net", 100⟩ : PMState) with nextRound := 50 }
    ∧ (pInit "A" "net" 50 MetaFile.missing).1 = MetaFile.content ⟨"A", "net", 0⟩
    ∧ (pInit "A" "net" 50 MetaFile.missing).2.2 =
        Except.ok ⟨"A", "net", 50⟩ :=
  c10_override_not_flushed "A" "net" 50 ⟨"A", "net", 100⟩ (by decide) (by decide)

/-- C1 counterexample (spec scenario 7 as claimed is false): a completion
callback fails on round 4 after it was exported, but the retry does not
re-attempt round 4 — the trace shows the callback error on round 4
followed by an import of round 5, and the exporter receives 4 and 5 each
once, never round 4 a second time. -/
theorem c1_callback_same_round_cex :
    Ev.callback 0 4 false ∈ (run cbFailOnceEnv 2 0
        ⟨0, ⟨"g", "n", 4⟩, MetaFile.content ⟨"g", "n", 4⟩, none⟩).events
    ∧ roundsAttempted (run cbFailOnceEnv 2 0
        ⟨0, ⟨"g", "n", 4⟩, MetaFile.content ⟨"g", "n", 4⟩, none⟩).events =
        [4, 5]
    ∧ exportRounds (run cbFailOnceEnv 2 0
        ⟨0, ⟨"g", "n", 4⟩, MetaFile.content ⟨"g", "n", 4⟩, none⟩).events =
        [4, 5] := by
  decide

/-- C1 (amended): if a completion callback fails after round N was
exported, the error is latched and the worker retries without exiting,
but the cursor has already advanced to N+1, so the retry attempts round
N+1 from the importer — the exporter does not receive round N again. -/
theorem c1_callback_error_retries_next_round (env : Env) (iter : Nat)
    (s : WState) (j : Nat)
    (hcap : s.retry ≤ env.retryCap) (hcan : env.cancelled iter = false)
    (himp : env.importOk iter s.meta.nextRound = true)
    (hpr : (runProcs env iter s.meta.nextRound
      (List.range env.numProcs)).2 = none)
    (hexp : env.exportOk iter s.meta.nextRound = true)
    (hcr : (runCbs env iter s.meta.nextRound
      (List.range env.numCbs)).2 = some j) :
    (runIteration env iter s).exited = false
    ∧ (runIteration env iter s).state.retry = s.retry + 1
    ∧ pipelineError (runIteration env iter s).state =
        some (PErr.callbackErr iter j)
    ∧ (runIteration env iter s).state.meta.nextRound = s.meta.nextRound + 1
    ∧ ((runIteration env iter s).state.retry ≤ env.retryCap →
        env.cancelled (iter + 1) = false →
        roundsAttempted (runIteration env (iter + 1)
            (runIteration env iter s).state).events =
          [s.meta.nextRound + 1]) := by
  have hit := runIteration_cbFail env iter s j hcap hcan himp hpr hexp hcr
  refine ⟨by rw [hit], by rw [hit], by rw [hit]; rfl, by rw [hit], ?_⟩
  intro hcap2 hcan2
  rw [roundsAttempted_iter env (iter + 1) (runIteration env iter s).state
    hcap2 hcan2, hit]

/-- Witness for C1 (amended) at the scenario-7 environment: callback 0
fails at iteration 0 on round 4; the iteration does not exit, retry goes
to 1, the callback error is latched, the cursor is 5, and the next
iteration imports round 5. -/
theorem c1_callback_error_retries_next_round_witness :
    (runIteration cbFailOnceEnv 0
        ⟨0, ⟨"g", "n", 4⟩, MetaFile.content ⟨"g", "n", 4⟩, none⟩).exited = false
    ∧ (runIteration cbFailOnceEnv 0
        ⟨0, ⟨"g", "n", 4⟩, MetaFile.content ⟨"g", "n", 4⟩, none⟩).state.retry
        = 0 + 1
    ∧ pipelineError (runIteration cbFailOnceEnv 0
        ⟨0, ⟨"g", "n", 4⟩, MetaFile.content ⟨"g", "n", 4⟩, none⟩).state =
        some (PErr.callbackErr 0 0)
    ∧ (runIteration cbFailOnceEnv 0
        ⟨0, ⟨"g", "n", 4⟩, MetaFile.content ⟨"g", "n", 4⟩,
          none⟩).state.meta.nextRound = 4 + 1
    ∧ ((runIteration cbFailOnceEnv 0
          ⟨0, ⟨"g", "n", 4⟩, MetaFile.content ⟨"g", "n", 4⟩,
            none⟩).state.retry ≤ cbFailOnceEnv.retryCap →
        cbFailOnceEnv.cancelled (0 + 1) = false →
        roundsAttempted (runIteration cbFailOnceEnv (0 + 1)
            (runIteration cbFailOnceEnv 0
              ⟨0, ⟨"g", "n", 4⟩, MetaFile.content ⟨"g", "n", 4⟩,
                none⟩).state).events = [4 + 1]) :=
  c1_callback_error_retries_next_round cbFailOnceEnv 0
    ⟨0, ⟨"g", "n", 4⟩, MetaFile.content ⟨"g", "n", 4⟩, none⟩ 0
    (by decide) (by decide) (by decide) (by decide) (by decide) (by decide)

/-- C2 counterexample: with `RetryDelay = 100`, a cancellation arriving
at the very instant the retry sleep starts (`t0 = tc = 0`) is observed
only after the full sleep: the worker exits, but at instant 100, a full
`RetryDelay` after the cancellation — not significantly less. -/
theorem c2_sleep_interruptible_cex :
    (retrySleepThenCheck 1 10 100 0 (some 0)).exited = true
    ∧ (retrySleepThenCheck 1 10 100 0 (some 0)).exitTime = 100
    ∧ ¬ ((retrySleepThenCheck 1 10 100 0 (some 0)).exitTime - 0 < 100) := by
  decide

/-- C2 (amended): the inter-retry sleep is a plain `time.Sleep`, not
interruptible: a cancellation arriving during the sleep is observed only
at the poll after the sleep completes, so the worker does exit, at
exactly `t0 + delay` — within at most `RetryDelay` of the cancellation,
with the bound attained when the cancellation coincides with the start of
the sleep. -/
theorem c2_sleep_uninterruptible (retry cap delay t0 tc : Nat)
    (h1 : 0 < retry) (h2 : retry ≤ cap) (h3 : t0 ≤ tc)
    (h4 : tc ≤ t0 + delay) :
    (retrySleepThenCheck retry cap delay t0 (some tc)).exited = true
    ∧ (retrySleepThenCheck retry cap delay t0 (some tc)).exitTime = t0 + delay
    ∧ (retrySleepThenCheck retry cap delay t0 (some tc)).exitTime ≤
        tc + delay := by
  have hn : ¬ retry > cap := Nat.not_lt.2 h2
  refine ⟨?_, ?_, ?_⟩ <;> simp [retrySleepThenCheck, hn, h1, h4] <;> omega

/-- Witness for C2 (amended): cancellation at instant 50 during a sleep
of 100 starting at 0; the worker exits at instant 100. -/
theorem c2_sleep_uninterruptible_witness :
    (retrySleepThenCheck 1 10 100 0 (some 50)).exited = true
    ∧ (retrySleepThenCheck 1 10 100 0 (some 50)).exitTime = 0 + 100
    ∧ (retrySleepThenCheck 1 10 100 0 (some 50)).exitTime ≤ 50 + 100 :=
  c2_sleep_uninterruptible 1 10 100 0 50 (by decide) (by decide) (by decide)
    (by decide)

/-- C6: after a fully successful round the latched error readable via
`Error()` is cleared to `nil` and the retry counter is reset to 0, so the
counter observed at the next failure starts from 0; and on retry-budget
exhaustion the worker exits without touching the latched error — it
remains the final observable error. -/
theorem c6_error_latch_semantics (env : Env) (iter : Nat) (s : WState) :
    (s.retry ≤ env.retryCap → env.cancelled iter = false →
      env.importOk iter s.meta.nextRound = true →
      (runProcs env iter s.meta.nextRound
        (List.range env.numProcs)).2 = none →
      env.exportOk iter s.meta.nextRound = true →
      (runCbs env iter s.meta.nextRound
        (List.range env.numCbs)).2 = none →
      pipelineError (runIteration env iter s).state = none
      ∧ (runIteration env iter s).state.retry = 0)
    ∧ (s.retry > env.retryCap →
      pipelineError (runIteration env iter s).state = pipelineError s
      ∧ (runIteration env iter s).exited = true) := by
  constructor
  · intro hcap hcan himp hpr hexp hcr
    rw [runIteration_success env iter s hcap hcan himp hpr hexp hcr]
    exact ⟨rfl, rfl⟩
  · intro h
    rw [runIteration_exhaust env iter s h]
    exact ⟨rfl, rfl⟩

/-- Witness for C6: a fully successful iteration at `cbFailOnceEnv`
iteration 1 starting with a latched error and retry 1 clears both; an
exhausted state (retry 4 over budget 3) exits with the latched error
untouched. -/
theorem c6_error_latch_semantics_witness :
    (pipelineError (runIteration cbFailOnceEnv 1
        ⟨1, ⟨"g", "n", 5⟩, MetaFile.content ⟨"g", "n", 5⟩,
          some (PErr.callbackErr 0 0)⟩).state = none
      ∧ (runIteration cbFailOnceEnv 1
          ⟨1, ⟨"g", "n", 5⟩, MetaFile.content ⟨"g", "n", 5⟩,
            some (PErr.callbackErr 0 0)⟩).state.retry = 0)
    ∧ (pipelineError (runIteration cbFailOnceEnv 9
        ⟨4, ⟨"g", "n", 5⟩, MetaFile.content ⟨"g", "n", 5⟩,
          some (PErr.exporterErr 8)⟩).state =
        pipelineError ⟨4, ⟨"g", "n", 5⟩, MetaFile.content ⟨"g", "n", 5⟩,
          some (PErr.exporterErr 8)⟩
      ∧ (runIteration cbFailOnceEnv 9
          ⟨4, ⟨"g", "n", 5⟩, MetaFile.content ⟨"g", "n", 5⟩,
            some (PErr.exporterErr 8)⟩).exited = true) :=
  ⟨(c6_error_latch_semantics cbFailOnceEnv 1
      ⟨1, ⟨"g", "n", 5⟩, MetaFile.content ⟨"g", "n", 5⟩,
        some (PErr.callbackErr 0 0)⟩).1
    (by decide) (by decide) (by decide) (by decide) (by decide) (by decide),
   (c6_error_latch_semantics cbFailOnceEnv 9
      ⟨4, ⟨"g", "n", 5⟩, MetaFile.content ⟨"g", "n", 5⟩,
        some (PErr.exporterErr 8)⟩).2 (by decide)⟩

/-- C7: when the metadata flush fails after a successful export, the
round is not aborted: the flush failure event is recorded, the file is
left as it was, yet the worker proceeds to run every completion callback,
the cursor stays advanced, the retry counter ends the round at 0 with no
latched error, and the worker continues to the next round. -/
theorem c7_flush_failure_not_retried (env : Env) (iter : Nat) (s : WState)
    (hcap : s.retry ≤ env.retryCap) (hcan : env.cancelled iter = false)
    (himp : env.importOk iter s.meta.nextRound = true)
    (hpr : (runProcs env iter s.meta.nextRound
      (List.range env.numProcs)).2 = none)
    (hexp : env.exportOk iter s.meta.nextRound = true)
    (hfl : env.flushOk iter = false)
    (hcr : (runCbs env iter s.meta.nextRound
      (List.range env.numCbs)).2 = none) :
    (runIteration env iter s).exited = false
    ∧ (runIteration env iter s).state.retry = 0
    ∧ pipelineError (runIteration env iter s).state = none
    ∧ (runIteration env iter s).state.meta.nextRound = s.meta.nextRound + 1
    ∧ (runIteration env iter s).state.file = s.file
    ∧ Ev.metaWrite (s.meta.nextRound + 1) false ∈ (runIteration env iter s).events
    ∧ ∀ j < env.numCbs,
        Ev.callback j s.meta.nextRound true ∈ (runIteration env iter s).events := by
  have hit := runIteration_success env iter s hcap hcan himp hpr hexp hcr
  refine ⟨by rw [hit], by rw [hit], by rw [hit]; rfl, by rw [hit],
    ?_, ?_, ?_⟩
  · rw [hit]
    show (encodeMetadataToFile (env.flushOk iter) _ s.file).1 = s.file
    rw [hfl]
    rfl
  · rw [hit]
    have : (encodeMetadataToFile (env.flushOk iter)
        { s.meta with nextRound := s.meta.nextRound + 1 } s.file).2 = false := by
      rw [hfl]; rfl
    simp [this]
  · intro j hj
    have hjm : j ∈ List.range env.numCbs := List.mem_range.2 hj
    have hmem := runCbs_none_mem env iter s.meta.nextRound
      (List.range env.numCbs) hcr j hjm
    rw [hit]
    simp only [List.mem_append]
    left; left; right
    exact hmem

/-- Witness for C7: at `flushFailEnv` (flush always fails), a round at
cursor 4 completes: no exit, retry 0, no latched error, cursor 5, file
unchanged, failed flush of 5 recorded, callback 0 ran on round 4. -/
theorem c7_flush_failure_not_retried_witness :
    (runIteration flushFailEnv 0
        ⟨0, ⟨"g", "n", 4⟩, MetaFile.content ⟨"g", "n", 4⟩, none⟩).exited = false
    ∧ (runIteration flushFailEnv 0
        ⟨0, ⟨"g", "n", 4⟩, MetaFile.content ⟨"g", "n", 4⟩, none⟩).state.retry = 0
    ∧ pipelineError (runIteration flushFailEnv 0
        ⟨0, ⟨"g", "n", 4⟩, MetaFile.content ⟨"g", "n", 4⟩, none⟩).state = none
    ∧ (runIteration flushFailEnv 0
        ⟨0, ⟨"g", "n", 4⟩, MetaFile.content ⟨"g", "n", 4⟩,
          none⟩).state.meta.nextRound = 4 + 1
    ∧ (runIteration flushFailEnv 0
        ⟨0, ⟨"g", "n", 4⟩, MetaFile.content ⟨"g", "n", 4⟩, none⟩).state.file =
        MetaFile.content ⟨"g", "n", 4⟩
    ∧ Ev.metaWrite (4 + 1) false ∈ (runIteration flushFailEnv 0
        ⟨0, ⟨"g", "n", 4⟩, MetaFile.content ⟨"g", "n", 4⟩, none⟩).events
    ∧ ∀ j < flushFailEnv.numCbs,
        Ev.callback j 4 true ∈ (runIteration flushFailEnv 0
          ⟨0, ⟨"g", "n", 4⟩, MetaFile.content ⟨"g", "n", 4⟩, none⟩).events :=
  c7_flush_failure_not_retried flushFailEnv 0
    ⟨0, ⟨"g", "n", 4⟩, MetaFile.content ⟨"g", "n", 4⟩, none⟩
    (by decide) (by decide) (by decide) (by decide) (by decide) (by decide)
    (by decide)

/-- C9 counterexample: an attempt that fails at the (only) processor has
already observed the importer timing histogram — a failed attempt does
add an observation to a per-stage timing histogram, refuting the claim
that only `retryCount` is observed on a failed attempt. -/
theorem c9_failed_attempt_observes_timer_cex :
    Ev.obsImporterTime ∈ (runIteration procFailEnv 0
        ⟨0, ⟨"g", "n", 7⟩, MetaFile.missing, none⟩).events
    ∧ (runIteration procFailEnv 0
        ⟨0, ⟨"g", "n", 7⟩, MetaFile.missing, none⟩).state.retry = 1
    ∧ pipelineError (runIteration procFailEnv 0
        ⟨0, ⟨"g", "n", 7⟩, MetaFile.missing, none⟩).state =
        some (PErr.processorErr 0 0) := by
  decide

/-- C9 (amended): per-stage timers are observed as soon as the stage
itself succeeds, not only on fully successful attempts: an attempt with
a successful import but a failing processor chain has already observed
the importer timer, while the exporter timer — observed only after the
export and all callbacks succeed — is absent; `retryCount` is observed
at the very start of every attempt. -/
theorem c9_timers_follow_stage_success (env : Env) (iter : Nat) (s : WState)
    (i : Nat)
    (hcap : s.retry ≤ env.retryCap) (hcan : env.cancelled iter = false)
    (himp : env.importOk iter s.meta.nextRound = true)
    (hpr : (runProcs env iter s.meta.nextRound
      (List.range env.numProcs)).2 = some i) :
    (runIteration env iter s).events.head? = some (Ev.obsRetryCount s.retry)
    ∧ Ev.obsImporterTime ∈ (runIteration env iter s).events
    ∧ Ev.obsExporterTime ∉ (runIteration env iter s).events
    ∧ (runIteration env iter s).state.retry = s.retry + 1 := by
  rw [runIteration_procFail env iter s i hcap hcan himp hpr]
  refine ⟨?_, ?_, ?_, rfl⟩
  · by_cases hr : s.retry > 0 <;> simp [hr]
  · by_cases hr : s.retry > 0 <;> simp [hr]
  · have hnp := exporterTime_notin_runProcs env iter s.meta.nextRound
      (List.range env.numProcs)
    by_cases hr : s.retry > 0 <;> simp [hr, hnp]

/-- Witness for C9 (amended) at `procFailEnv`: attempt at round 7 fails
at processor 0; retryCount heads the trace, the importer timer was
observed, the exporter timer was not, retry went to 1. -/
theorem c9_timers_follow_stage_success_witness :
    (runIteration procFailEnv 0
        ⟨0, ⟨"g", "n", 7⟩, MetaFile.content ⟨"g", "n", 7⟩, none⟩).events.head?
        = some (Ev.obsRetryCount 0)
    ∧ Ev.obsImporterTime ∈ (runIteration procFailEnv 0
        ⟨0, ⟨"g", "n", 7⟩, MetaFile.content ⟨"g", "n", 7⟩, none⟩).events
    ∧ Ev.obsExporterTime ∉ (runIteration procFailEnv 0
        ⟨0, ⟨"g", "n", 7⟩, MetaFile.content ⟨"g", "n", 7⟩, none⟩).events
    ∧ (runIteration procFailEnv 0
        ⟨0, ⟨"g", "n", 7⟩, MetaFile.content ⟨"g", "n", 7⟩, none⟩).state.retry
        = 0 + 1 :=
  c9_timers_follow_stage_success procFailEnv 0
    ⟨0, ⟨"g", "n", 7⟩, MetaFile.content ⟨"g", "n", 7⟩, none⟩ 0
    (by decide) (by decide) (by decide) (by decide)
